import Mathlib

/-!
Verification of the image-editing single-page application.

The repository has two source files:
* `services/geminiService.ts` — the Edit Client: `editImageWithPrompt` checks the
  `API_KEY` environment value, sends one request to the remote model and extracts
  the returned inline image data, wrapping every failure raised inside its
  `try` block (including its own "no image data" throw) with a fixed prefix.
* the application shell (React component `App`) — UI state
  (`originalImage`, `editedImage`, `prompt`, `isLoading`, `error`,
  `originalFile`, `isDraggingOver`) and the handlers
  `handleImageUpload`, `handleFileChange`, the paste listener, `handleDrop`,
  `handleGenerateClick`, `handleKeyDown`, `handleDownloadClick`, `clearImage`.

The embedding below is a direct shallow translation: JavaScript string
truthiness becomes `strTruthy` / `== ""` tests, the asynchronous remote call
becomes an explicit `RemoteOutcome` parameter describing how the external call
resolves, the `fileToBase64` helper (not part of the two source files) becomes
an explicit `Except Unit String` outcome parameter, and `handleGenerateClick`
additionally returns the list of edit requests it issued so that
"exactly one request per submission" is expressible.
-/

/-- A browser `File` as the shell uses it: its `name` and its MIME `type`. -/
structure FileInfo where
  name : String
  type : String
deriving DecidableEq, Repr

/-- The React state of the `App` component, in declaration order. -/
structure AppState where
  originalImage : Option String
  editedImage : Option String
  prompt : String
  isLoading : Bool
  error : Option String
  originalFile : Option FileInfo
  isDraggingOver : Bool
deriving DecidableEq, Repr

/-- JavaScript truthiness of a nullable string: `null`/`undefined` and the
empty string are falsy. -/
def strTruthy : Option String → Bool
  | none => false
  | some s => !(s == "")

/-- Error message set by `handleImageUpload` when `fileToBase64` rejects. -/
def loadImageFailedMsg : String := "加载图像失败。请尝试其他文件。"

/-- Error message set by `handleGenerateClick` when image, prompt or file is missing. -/
def missingInputMsg : String := "请上传一张图片并输入提示。"

/-- Error-message head used by `handleGenerateClick` when the client rejects. -/
def generateFailedHead : String := "生成图像失败： "

/-- Message used when a non-`Error` value is thrown at the shell boundary. -/
def unknownErrorMsg : String := "发生未知错误。"

/-- Error thrown by `editImageWithPrompt` when `process.env.API_KEY` is unset. -/
def missingApiKeyMsg : String := "未设置 API_KEY 环境变量"

/-- Head of the message with which `editImageWithPrompt` re-wraps any `Error`
caught in its `try` block. -/
def geminiErrorHead : String := "Gemini API 错误： "

/-- Message of the `Error` thrown when no response part carries inline image data. -/
def noImageDataMsg : String := "在 Gemini API 的响应中未找到图像数据。"

/-- Message thrown when a non-`Error` value is caught in the client. -/
def unexpectedCommErrorMsg : String := "与 Gemini API 通信时发生意外错误。"

/-- One part of the remote response's `candidates[0].content.parts`. -/
structure ResponsePart where
  inlineData : Option String
  text : Option String
deriving DecidableEq, Repr

/-- How the awaited `ai.models.generateContent` call resolves:
either it throws (`failure`, with the thrown `Error`'s message, or `none`
when a non-`Error` value is thrown), or it returns a response whose
`candidates[0].content.parts` is the given list. -/
inductive RemoteOutcome where
  | failure (errMsg : Option String)
  | response (parts : List ResponsePart)
deriving DecidableEq, Repr

/-- The `for (const part of response.candidates[0].content.parts)` loop:
the first part with `inlineData`, if any. -/
def findInlineData : List ResponsePart → Option String
  | [] => none
  | p :: rest =>
    match p.inlineData with
    | some d => some d
    | none => findInlineData rest

/-- The function `editImageWithPrompt` from `services/geminiService.ts`.
`apiKey` is `process.env.API_KEY`; `outcome` is how the remote call resolves.
Note that the `throw` for a response without image data sits inside the `try`
block, so its `Error` is caught by the same `catch` and re-wrapped with
`geminiErrorHead`, exactly like a remote failure. -/
def editImageWithPrompt (apiKey : Option String) (base64ImageData : String)
    (mimeType : String) (prompt : String) (outcome : RemoteOutcome) :
    Except String String :=
  if !strTruthy apiKey then
    Except.error missingApiKeyMsg
  else
    match outcome with
    | .failure (some msg) => Except.error (geminiErrorHead ++ msg)
    | .failure none => Except.error unexpectedCommErrorMsg
    | .response parts =>
      match findInlineData parts with
      | some data => Except.ok data
      | none => Except.error (geminiErrorHead ++ noImageDataMsg)

/-- JavaScript `String.prototype.split` with a one-character separator, on `List Char`. -/
def jsSplitChars (sep : Char) : List Char → List (List Char)
  | [] => [[]]
  | c :: rest =>
    match jsSplitChars sep rest with
    | [] => [[]]
    | h :: t => if c == sep then [] :: h :: t else (c :: h) :: t

/-- JavaScript `s.split(sep)` for a one-character separator. -/
def jsSplit (s : String) (sep : Char) : List String :=
  (jsSplitChars sep s.toList).map String.mk

/-- The expression `originalImage.split(',')[1]` — the data-URL payload after the first comma
(the empty string standing in for JavaScript `undefined` when there is none). -/
def dataUrlPayload (s : String) : String :=
  (jsSplit s ',').getD 1 ""

/-- The argument triple of one `editImageWithPrompt` call. -/
structure EditRequest where
  base64ImageData : String
  mimeType : String
  prompt : String
deriving DecidableEq, Repr

/-- The handler `handleGenerateClick`: the submit handler. Returns the new state together
with the list of edit requests it issued during this submission. -/
def handleGenerateClick (s : AppState) (apiKey : Option String)
    (outcome : RemoteOutcome) : AppState × List EditRequest :=
  if !strTruthy s.originalImage || s.prompt == "" || !s.originalFile.isSome then
    ({ s with error := some missingInputMsg }, [])
  else
    let img := s.originalImage.getD ""
    let file := s.originalFile.getD ⟨"", ""⟩
    let s1 : AppState := { s with isLoading := true, editedImage := none, error := none }
    let base64Data := dataUrlPayload img
    let req : EditRequest := ⟨base64Data, file.type, s.prompt⟩
    match editImageWithPrompt apiKey base64Data file.type s.prompt outcome with
    | .ok resultBase64 =>
      ({ s1 with
          editedImage := some ("data:" ++ file.type ++ ";base64," ++ resultBase64),
          isLoading := false }, [req])
    | .error msg =>
      ({ s1 with
          error := some (generateFailedHead ++ msg),
          isLoading := false }, [req])

/-- The handler `handleKeyDown` on the prompt input: an Enter keypress triggers
`handleGenerateClick` only when an image is loaded, the prompt is truthy and
no request is loading. -/
def handleKeyDown (s : AppState) (key : String) (apiKey : Option String)
    (outcome : RemoteOutcome) : AppState × List EditRequest :=
  if key == "Enter" && strTruthy s.originalImage && !(s.prompt == "") && !s.isLoading then
    handleGenerateClick s apiKey outcome
  else
    (s, [])

/-- The `disabled` attribute of the generate button:
`!originalImage || !prompt || isLoading`. -/
def generateButtonDisabled (s : AppState) : Bool :=
  !strTruthy s.originalImage || s.prompt == "" || s.isLoading

/-- The handler `clearImage`: reset source image, file, edited image and error. -/
def clearImage (s : AppState) : AppState :=
  { s with originalImage := none, originalFile := none,
           editedImage := none, error := none }

/-- The handler `handleImageUpload`: store the decoded image and file and clear the edited
image and error; on a `fileToBase64` failure set the load error.
`decoded` is the outcome of `await fileToBase64(file)`. -/
def handleImageUpload (s : AppState) (file : Option FileInfo)
    (decoded : Except Unit String) : AppState :=
  match file with
  | none => s
  | some f =>
    match decoded with
    | .ok base64 =>
      { s with originalImage := some base64, originalFile := some f,
               editedImage := none, error := none }
    | .error _ => { s with error := some loadImageFailedMsg }

/-- The handler `handleFileChange`: the file-picker path, `event.target.files?.[0] || null`
fed to `handleImageUpload`. -/
def handleFileChange (s : AppState) (files : List FileInfo)
    (decoded : Except Unit String) : AppState :=
  handleImageUpload s files.head? decoded

/-- JavaScript `String.prototype.startsWith` on `List Char`. -/
def charListStartsWith : List Char → List Char → Bool
  | _, [] => true
  | [], _ :: _ => false
  | c :: s, p :: ps => c == p && charListStartsWith s ps

/-- JavaScript `s.startsWith(pre)`. -/
def jsStartsWith (s pre : String) : Bool :=
  charListStartsWith s.toList pre.toList

/-- The `paste` listener: take `clipboardData.files[0]` and load it when its
type starts with `image/`. -/
def handlePaste (s : AppState) (files : List FileInfo)
    (decoded : Except Unit String) : AppState :=
  match files.head? with
  | some f =>
    if jsStartsWith f.type "image/" then handleImageUpload s (some f) decoded else s
  | none => s

/-- The handler `handleDrop`: leave dragging state, ignore the drop when an image is
already loaded, otherwise load `dataTransfer.files[0]` when it is an image. -/
def handleDrop (s : AppState) (files : List FileInfo)
    (decoded : Except Unit String) : AppState :=
  let s1 := { s with isDraggingOver := false }
  if strTruthy s1.originalImage then s1
  else
    match files.head? with
    | some f =>
      if jsStartsWith f.type "image/" then handleImageUpload s1 (some f) decoded else s1
    | none => s1

/-- A character matched by the class `[\w\d_-]` of the download-name regex. -/
def isExtChar (c : Char) : Bool :=
  c.isAlphanum || c == '_' || c == '-'

/-- The regex match of `(\.[\w\d_-]+)$`: split the name at the last dot when
everything after that dot is a nonempty run of extension characters; `none`
when the regex does not match. -/
def extSplit : List Char → Option (List Char × List Char)
  | [] => none
  | c :: rest =>
    match extSplit rest with
    | some (pre, ext) => some (c :: pre, ext)
    | none =>
      if c == '.' && !rest.isEmpty && rest.all isExtChar then some ([], rest)
      else none

/-- The expression `name.replace(/(\.[\w\d_-]+)$/i, '_edited$1')`. -/
def replaceEdited (name : String) : String :=
  match extSplit name.toList with
  | some (pre, ext) => String.mk (pre ++ String.toList "_edited." ++ ext)
  | none => name

/-- The expression `originalFile?.name.replace(...) || 'edited-image.png'`. -/
def downloadFileName (originalFile : Option FileInfo) : String :=
  match originalFile with
  | none => "edited-image.png"
  | some f =>
    let r := replaceEdited f.name
    if r == "" then "edited-image.png" else r

/-- The handler `handleDownloadClick`: the file name offered for download, `none` when
there is no edited image to download. -/
def handleDownloadClick (s : AppState) : Option String :=
  if !strTruthy s.editedImage then none
  else some (downloadFileName s.originalFile)

/-! ## Helper lemmas -/

/-- Splitting a character list that does not contain the separator yields the
single segment. -/
theorem jsSplitChars_eq_single (sep : Char) :
    ∀ l : List Char, sep ∉ l → jsSplitChars sep l = [l] := by
  intro l hl
  induction l with
  | nil => rfl
  | cons c rest ih =>
    have hc : ¬(c = sep) := fun h => hl (h ▸ List.mem_cons_self c rest)
    have hrest : sep ∉ rest := fun h => hl (List.mem_cons_of_mem c h)
    simp [jsSplitChars, ih hrest, hc]

/-- Splitting around the unique separator occurrence yields the two segments. -/
theorem jsSplitChars_eq_pair (sep : Char) (l1 l2 : List Char)
    (h1 : sep ∉ l1) (h2 : sep ∉ l2) :
    jsSplitChars sep (l1 ++ sep :: l2) = [l1, l2] := by
  induction l1 with
  | nil => simp [jsSplitChars, jsSplitChars_eq_single sep l2 h2]
  | cons c rest ih =>
    have hc : ¬(c = sep) := fun h => h1 (h ▸ List.mem_cons_self c rest)
    have hrest : sep ∉ rest := fun h => h1 (List.mem_cons_of_mem c h)
    simp [jsSplitChars, ih hrest, hc]

/-- The payload extracted from a well-formed data URL whose media type and
base64 data contain no comma. -/
theorem dataUrlPayload_eq (mt d : String)
    (hmt : ',' ∉ mt.toList) (hd : ',' ∉ d.toList) :
    dataUrlPayload ("data:" ++ mt ++ ";base64," ++ d) = d := by
  have hsplit : ("data:" ++ mt ++ ";base64," ++ d).toList =
      ("data:".toList ++ mt.toList ++ ";base64".toList) ++ ',' :: d.toList := by
    simp [String.toList, String.data_append]
  have hleft : ',' ∉ "data:".toList ++ mt.toList ++ ";base64".toList := by
    intro h
    rcases List.mem_append.1 h with h' | h'
    · rcases List.mem_append.1 h' with h'' | h''
      · simp [String.toList] at h''
      · exact hmt h''
    · simp [String.toList] at h'
  rw [dataUrlPayload, jsSplit, hsplit, jsSplitChars_eq_pair ',' _ _ hleft hd]
  simp [String.toList]

/-- A string append with a nonempty right part is nonempty. -/
theorem append_ne_empty_right (a b : String) (hb : b ≠ "") : a ++ b ≠ "" := by
  intro h
  have hd := congrArg String.data h
  rw [String.data_append] at hd
  exact hb (String.ext (by rw [(List.append_eq_nil.1 hd).2]))

/-- A string append with a nonempty left part is nonempty. -/
theorem append_ne_empty_left (a b : String) (ha : a ≠ "") : a ++ b ≠ "" := by
  intro h
  have hd := congrArg String.data h
  rw [String.data_append] at hd
  exact ha (String.ext (by rw [(List.append_eq_nil.1 hd).1]))

/-! ## Claim theorems -/

/-- C7: for every shell state, `clearImage` sets the source image, the original
file, the edited image and the error all to empty. -/
theorem clearImage_resets_all (s : AppState) :
    (clearImage s).originalImage = none ∧ (clearImage s).editedImage = none ∧
    (clearImage s).error = none ∧ (clearImage s).originalFile = none := by
  simp [clearImage]

/-- C4: when the `API_KEY` environment value is absent, `editImageWithPrompt`
fails with the missing-credential message, and the result does not depend on
how the remote call would resolve (no remote call is performed): the outcome
is universally quantified and the error is the same for every value. -/
theorem missing_api_key_fails (b64 mt p : String) (outcome : RemoteOutcome) :
    editImageWithPrompt none b64 mt p outcome = Except.error missingApiKeyMsg := by
  simp [editImageWithPrompt, strTruthy]

/-- C6: whenever no image is loaded, or the prompt is empty, or a request is
already in flight, the generate button is disabled and an Enter keypress in
the prompt field triggers no `handleGenerateClick` call, issuing no request;
in particular while `isLoading` is set no second request can be started, so
at most one edit request is outstanding at a time. -/
theorem submit_trigger_disabled (s : AppState) (key : String)
    (apiKey : Option String) (outcome : RemoteOutcome)
    (h : s.originalImage = none ∨ s.prompt = "" ∨ s.isLoading = true) :
    generateButtonDisabled s = true ∧
    handleKeyDown s key apiKey outcome = (s, []) := by
  rcases h with h | h | h <;>
    simp [generateButtonDisabled, handleKeyDown, h, strTruthy]

/-- Witness for C6 at a concrete loading state. -/
theorem submit_trigger_disabled_witness :
    generateButtonDisabled
      ⟨some "data:image/png;base64,AAAA", none, "add a hat", true, none,
        some ⟨"cat.png", "image/png"⟩, false⟩ = true ∧
    handleKeyDown
      ⟨some "data:image/png;base64,AAAA", none, "add a hat", true, none,
        some ⟨"cat.png", "image/png"⟩, false⟩ "Enter" (some "key")
      (.response [⟨some "DDDD", none⟩]) =
      (⟨some "data:image/png;base64,AAAA", none, "add a hat", true, none,
        some ⟨"cat.png", "image/png"⟩, false⟩, []) :=
  submit_trigger_disabled
    ⟨some "data:image/png;base64,AAAA", none, "add a hat", true, none,
      some ⟨"cat.png", "image/png"⟩, false⟩ "Enter" (some "key")
    (.response [⟨some "DDDD", none⟩]) (Or.inr (Or.inr rfl))

/-- C10: when the submit handler runs with no loaded image, an empty prompt,
or no held file, it issues no edit request and only sets the fixed error
message; the edited-image and loading states are unchanged. -/
theorem submit_guard_blocks (s : AppState) (apiKey : Option String)
    (outcome : RemoteOutcome)
    (h : strTruthy s.originalImage = false ∨ s.prompt = "" ∨ s.originalFile = none) :
    handleGenerateClick s apiKey outcome =
      ({ s with error := some missingInputMsg }, []) := by
  rcases h with h | h | h
  · simp [handleGenerateClick, h]
  · simp [handleGenerateClick, h]
  · simp [handleGenerateClick, h]

/-- Witness for C10: a state with a stale edited image and the loading flag
set keeps both unchanged while the fixed error message appears. -/
theorem submit_guard_blocks_witness :
    handleGenerateClick
      ⟨none, some "data:image/png;base64,OLD", "add a hat", true, none, none, true⟩
      (some "key") (.failure none) =
      ({ (⟨none, some "data:image/png;base64,OLD", "add a hat", true, none, none, true⟩ :
          AppState) with error := some missingInputMsg }, []) :=
  submit_guard_blocks
    ⟨none, some "data:image/png;base64,OLD", "add a hat", true, none, none, true⟩
    (some "key") (.failure none) (Or.inl rfl)

/-- C1: on a successful edit call the shell stores the returned base64 data
prefixed with the media-type declaration of the loaded file:
`data:` ++ mediaType ++ `;base64,` ++ returnedData. -/
theorem edited_image_on_success (img p d : String) (ed er : Option String)
    (ld dr : Bool) (f : FileInfo) (apiKey : Option String) (outcome : RemoteOutcome)
    (himg : img ≠ "") (hp : p ≠ "")
    (hok : editImageWithPrompt apiKey (dataUrlPayload img) f.type p outcome =
      Except.ok d) :
    (handleGenerateClick ⟨some img, ed, p, ld, er, some f, dr⟩ apiKey
        outcome).1.editedImage =
      some ("data:" ++ f.type ++ ";base64," ++ d) := by
  simp [handleGenerateClick, strTruthy, himg, hp, hok]

/-- Witness for C1: a PNG source and returned data `DDDD` yield the
edited-image value `data:image/png;base64,DDDD`. -/
theorem edited_image_on_success_witness :
    (handleGenerateClick
      ⟨some "data:image/png;base64,AAAA", none, "add a hat", false, none,
        some ⟨"cat.png", "image/png"⟩, false⟩ (some "key")
      (.response [⟨some "DDDD", none⟩])).1.editedImage =
      some ("data:" ++ "image/png" ++ ";base64," ++ "DDDD") :=
  edited_image_on_success "data:image/png;base64,AAAA" "add a hat" "DDDD"
    none none false false ⟨"cat.png", "image/png"⟩ (some "key")
    (.response [⟨some "DDDD", none⟩]) (by decide) (by decide) rfl

/-- Counterexample for C2 as stated: before the submission the edited-image
state holds a previous result, the edit call fails, and afterwards the
edited-image state is `none` — it did not remain unchanged. -/
theorem failed_edit_cex :
    (handleGenerateClick
      ⟨some "data:image/png;base64,AAAA", some "data:image/png;base64,OLD",
        "add a hat", false, none, some ⟨"cat.png", "image/png"⟩, false⟩
      (some "key") (.failure (some "boom"))).1.editedImage = none ∧
    (some "data:image/png;base64,OLD" : Option String) ≠ none := by
  exact ⟨rfl, by simp⟩

/-- C2 amended: on a failed edit call the error state becomes non-empty, and
the edited-image state is cleared to empty (a previously successful edited
image is lost, having been cleared when the submission started). -/
theorem failed_edit_sets_error_clears_image (img p emsg : String)
    (ed er : Option String) (ld dr : Bool) (f : FileInfo)
    (apiKey : Option String) (outcome : RemoteOutcome)
    (himg : img ≠ "") (hp : p ≠ "")
    (herr : editImageWithPrompt apiKey (dataUrlPayload img) f.type p outcome =
      Except.error emsg) :
    (handleGenerateClick ⟨some img, ed, p, ld, er, some f, dr⟩ apiKey
        outcome).1.error = some (generateFailedHead ++ emsg) ∧
    generateFailedHead ++ emsg ≠ "" ∧
    (handleGenerateClick ⟨some img, ed, p, ld, er, some f, dr⟩ apiKey
        outcome).1.editedImage = none := by
  refine ⟨?_, append_ne_empty_left _ _ (by decide), ?_⟩ <;>
    simp [handleGenerateClick, strTruthy, himg, hp, herr]

/-- Witness for C2's amended theorem at a concrete failing call. -/
theorem failed_edit_sets_error_clears_image_witness :
    (handleGenerateClick
      ⟨some "data:image/png;base64,AAAA", some "data:image/png;base64,OLD",
        "add a hat", false, none, some ⟨"cat.png", "image/png"⟩, false⟩
      (some "key") (.failure (some "boom"))).1.error =
      some (generateFailedHead ++ (geminiErrorHead ++ "boom")) ∧
    generateFailedHead ++ (geminiErrorHead ++ "boom") ≠ "" ∧
    (handleGenerateClick
      ⟨some "data:image/png;base64,AAAA", some "data:image/png;base64,OLD",
        "add a hat", false, none, some ⟨"cat.png", "image/png"⟩, false⟩
      (some "key") (.failure (some "boom"))).1.editedImage = none :=
  failed_edit_sets_error_clears_image "data:image/png;base64,AAAA" "add a hat"
    (geminiErrorHead ++ "boom") (some "data:image/png;base64,OLD") none false false
    ⟨"cat.png", "image/png"⟩ (some "key") (.failure (some "boom"))
    (by decide) (by decide) rfl

/-- Counterexample for C3 as stated: a response without any image payload does
not produce the bare distinct no-image error; the thrown no-image `Error` is
caught by the client's own `catch` and re-wrapped with the same head used for
remote-call failures. -/
theorem no_image_error_wrapped_cex :
    editImageWithPrompt (some "key") "AAAA" "image/png" "add a hat"
        (.response [⟨none, some "some text"⟩]) =
      Except.error (geminiErrorHead ++ noImageDataMsg) ∧
    Except.error (geminiErrorHead ++ noImageDataMsg) ≠
      (Except.error noImageDataMsg : Except String String) := by
  refine ⟨rfl, ?_⟩
  simp only [ne_eq, Except.error.injEq]
  decide

/-- C3 amended: for every response containing no image payload (with the
credential present), the client fails with the no-image message wrapped by the
remote-failure head: `Gemini API 错误： 在 Gemini API 的响应中未找到图像数据。`;
the message is still distinguishable from wrapped remote failures by its text,
but it is not a separate unwrapped error kind. -/
theorem no_image_response_error (apiKey : Option String) (b64 mt p : String)
    (parts : List ResponsePart)
    (hkey : strTruthy apiKey = true)
    (hno : findInlineData parts = none) :
    editImageWithPrompt apiKey b64 mt p (.response parts) =
      Except.error (geminiErrorHead ++ noImageDataMsg) := by
  simp [editImageWithPrompt, hkey, hno]

/-- Witness for C3's amended theorem on a text-only response. -/
theorem no_image_response_error_witness :
    editImageWithPrompt (some "key") "AAAA" "image/png" "add a hat"
        (.response [⟨none, some "only text"⟩, ⟨none, none⟩]) =
      Except.error (geminiErrorHead ++ noImageDataMsg) :=
  no_image_response_error (some "key") "AAAA" "image/png" "add a hat"
    [⟨none, some "only text"⟩, ⟨none, none⟩] rfl rfl

/-- C8: an image loaded through any of the three entry paths (file picker,
clipboard paste, drag-and-drop) becomes the source image with the loaded file
held, while any prior edited result and any prior error are cleared; the drop
path additionally requires that no image is currently loaded and resets the
dragging indicator. -/
theorem load_image_paths (s : AppState) (f : FileInfo) (rest : List FileInfo)
    (b64 : String) (hty : jsStartsWith f.type "image/" = true) :
    handleFileChange s (f :: rest) (.ok b64) =
      { s with originalImage := some b64, originalFile := some f,
               editedImage := none, error := none } ∧
    handlePaste s (f :: rest) (.ok b64) =
      { s with originalImage := some b64, originalFile := some f,
               editedImage := none, error := none } ∧
    (strTruthy s.originalImage = false →
      handleDrop s (f :: rest) (.ok b64) =
        { s with originalImage := some b64, originalFile := some f,
                 editedImage := none, error := none, isDraggingOver := false }) := by
  refine ⟨?_, ?_, ?_⟩
  · simp [handleFileChange, handleImageUpload]
  · simp [handlePaste, handleImageUpload, hty]
  · intro h
    simp [handleDrop, handleImageUpload, hty, h]

/-- Witness for C8: loading `cat.png` over a state with a stale edited image
and error through each of the three paths. -/
theorem load_image_paths_witness :
    handleFileChange ⟨none, some "stale", "p", false, some "old error", none, true⟩
      [⟨"cat.png", "image/png"⟩] (.ok "data:image/png;base64,AAAA") =
      { (⟨none, some "stale", "p", false, some "old error", none, true⟩ : AppState) with
          originalImage := some "data:image/png;base64,AAAA",
          originalFile := some ⟨"cat.png", "image/png"⟩,
          editedImage := none, error := none } ∧
    handlePaste ⟨none, some "stale", "p", false, some "old error", none, true⟩
      [⟨"cat.png", "image/png"⟩] (.ok "data:image/png;base64,AAAA") =
      { (⟨none, some "stale", "p", false, some "old error", none, true⟩ : AppState) with
          originalImage := some "data:image/png;base64,AAAA",
          originalFile := some ⟨"cat.png", "image/png"⟩,
          editedImage := none, error := none } ∧
    (strTruthy (⟨none, some "stale", "p", false, some "old error", none, true⟩ :
        AppState).originalImage = false →
      handleDrop ⟨none, some "stale", "p", false, some "old error", none, true⟩
        [⟨"cat.png", "image/png"⟩] (.ok "data:image/png;base64,AAAA") =
        { (⟨none, some "stale", "p", false, some "old error", none, true⟩ : AppState) with
            originalImage := some "data:image/png;base64,AAAA",
            originalFile := some ⟨"cat.png", "image/png"⟩,
            editedImage := none, error := none, isDraggingOver := false }) :=
  load_image_paths ⟨none, some "stale", "p", false, some "old error", none, true⟩
    ⟨"cat.png", "image/png"⟩ [] "data:image/png;base64,AAAA" (by decide)

/-- C5: a submission with a loaded well-formed data URL and a nonempty prompt
issues exactly one edit request, whatever the outcome (in particular no retry
on failure), and that request carries the data-URL payload with its prefix
removed, the file's media type, and the typed prompt. -/
theorem single_request_with_payload (mt d p name : String) (ed er : Option String)
    (ld dr : Bool) (apiKey : Option String) (outcome : RemoteOutcome)
    (hmt : ',' ∉ mt.toList) (hd : ',' ∉ d.toList) (hp : p ≠ "") :
    (handleGenerateClick
      ⟨some ("data:" ++ mt ++ ";base64," ++ d), ed, p, ld, er,
        some ⟨name, mt⟩, dr⟩ apiKey outcome).2 = [⟨d, mt, p⟩] := by
  have himg : ("data:" ++ mt ++ ";base64," ++ d) ≠ "" :=
    append_ne_empty_left _ _ (append_ne_empty_left _ _
      (append_ne_empty_left _ _ (by decide)))
  have hpayload := dataUrlPayload_eq mt d hmt hd
  simp [handleGenerateClick, strTruthy, himg, hp, hpayload]
  split <;> simp

/-- Witness for C5 at a concrete PNG data URL and prompt, on a failing call. -/
theorem single_request_with_payload_witness :
    (handleGenerateClick
      ⟨some ("data:" ++ "image/png" ++ ";base64," ++ "AAAA"), none, "add a hat",
        false, none, some ⟨"cat.png", "image/png"⟩, false⟩ (some "key")
      (.failure (some "boom"))).2 = [⟨"AAAA", "image/png", "add a hat"⟩] :=
  single_request_with_payload "image/png" "AAAA" "add a hat" "cat.png" none none
    false false (some "key") (.failure (some "boom"))
    (by decide) (by decide) (by decide)

/-- The download-name regex does not match a pure run of extension characters
(the class contains no dot). -/
theorem extSplit_eq_none (l : List Char) (h : l.all isExtChar = true) :
    extSplit l = none := by
  induction l with
  | nil => rfl
  | cons c rest ih =>
    rw [List.all_cons, Bool.and_eq_true] at h
    have hc : (c == '.') = false := by
      cases hceq : c == '.'
      · rfl
      · rw [beq_iff_eq] at hceq
        subst hceq
        exact absurd h.1 (by decide)
    simp [extSplit, ih h.2, hc]

/-- The regex `(\.[\w\d_-]+)$` matches exactly the last dot of a name built
from a stem, a dot and a nonempty extension of extension characters. -/
theorem extSplit_append (p e : List Char) (he : e ≠ [])
    (hall : e.all isExtChar = true) :
    extSplit (p ++ '.' :: e) = some (p, e) := by
  induction p with
  | nil =>
    cases e with
    | nil => exact absurd rfl he
    | cons x xs =>
      rw [List.nil_append, extSplit, extSplit_eq_none _ hall]
      simp [hall]
  | cons c p ih =>
    simp [extSplit, ih]

/-- C9: with an edited image present, the offered download name inserts
`_edited` before the original name's extension (`cat.png` → `cat_edited.png`),
and defaults to `edited-image.png` when no original file is held. -/
theorem download_file_name_spec (s : AppState) (stem ext mt : String)
    (hed : strTruthy s.editedImage = true)
    (hex : ext ≠ "") (hall : ext.toList.all isExtChar = true) :
    (s.originalFile = some ⟨stem ++ "." ++ ext, mt⟩ →
      handleDownloadClick s = some (stem ++ "_edited." ++ ext)) ∧
    (s.originalFile = none → handleDownloadClick s = some "edited-image.png") := by
  constructor
  · intro hf
    have hexl : ext.toList ≠ [] := fun h => hex (String.ext h)
    have hname : (stem ++ "." ++ ext).toList =
        stem.toList ++ '.' :: ext.toList := by
      simp [String.toList, String.data_append]
    have hrep : replaceEdited (stem ++ "." ++ ext) = stem ++ "_edited." ++ ext := by
      rw [replaceEdited, hname, extSplit_append _ _ hexl hall]
      exact String.ext (by simp [String.toList, String.data_append])
    have hne : stem ++ "_edited." ++ ext ≠ "" :=
      append_ne_empty_left _ _ (append_ne_empty_right _ _ (by decide))
    simp [handleDownloadClick, hed, hf, downloadFileName, hrep, hne]
  · intro hf
    simp [handleDownloadClick, hed, hf, downloadFileName]

/-- Witness for C9: an edited image with original file `cat.png` downloads as
`cat_edited.png`; the same state with no file would default. -/
theorem download_file_name_spec_witness :
    ((⟨none, some "data:image/png;base64,DDDD", "p", false, none,
        some ⟨"cat.png", "image/png"⟩, false⟩ : AppState).originalFile =
        some ⟨"cat" ++ "." ++ "png", "image/png"⟩ →
      handleDownloadClick
        ⟨none, some "data:image/png;base64,DDDD", "p", false, none,
          some ⟨"cat.png", "image/png"⟩, false⟩ =
        some ("cat" ++ "_edited." ++ "png")) ∧
    ((⟨none, some "data:image/png;base64,DDDD", "p", false, none,
        some ⟨"cat.png", "image/png"⟩, false⟩ : AppState).originalFile = none →
      handleDownloadClick
        ⟨none, some "data:image/png;base64,DDDD", "p", false, none,
          some ⟨"cat.png", "image/png"⟩, false⟩ = some "edited-image.png") :=
  download_file_name_spec
    ⟨none, some "data:image/png;base64,DDDD", "p", false, none,
      some ⟨"cat.png", "image/png"⟩, false⟩ "cat" "png" "image/png"
    (by decide) (by decide) (by decide)
